import Mathlib

/-!
Verification development for the VNotions AI engine (Python source).

Strings from the Python code are modelled as `List Char`.  Python's
`str.lower`, `str.strip`, `str.startswith`, substring tests and
`str.split` are embedded as executable functions on `List Char`.
The handful of regular expressions used by the SQL workflow are compiled
by hand into sequences of simple tokens (literal, `\s*`, `\s+`, `\w+`,
`.*`, the trailing `(?:;|$)`) whose match semantics — existence of a
decomposition — coincide with Python `re.search` matchability.
-/

namespace VN

/-- ASCII lower-casing of one character, as Python `str.lower` acts on the
ASCII inputs appearing in this code base. -/
def pyLowerChar (c : Char) : Char :=
  if 'A' ≤ c ∧ c ≤ 'Z' then Char.ofNat (c.toNat + 32) else c

/-- Python `str.lower` on an ASCII string. -/
def pyLower (s : List Char) : List Char := s.map pyLowerChar

/-- Python `\s` / `str.strip` whitespace set (ASCII part). -/
def isWs (c : Char) : Bool :=
  c = ' ' || c = '\t' || c = '\n' || c = '\x0d' || c = '\x0b' || c = '\x0c'

/-- Python `\w`: ASCII letters, digits and underscore. -/
def isWordChar (c : Char) : Bool :=
  ('a' ≤ c && c ≤ 'z') || ('A' ≤ c && c ≤ 'Z') || ('0' ≤ c && c ≤ '9') || c = '_'

/-- Python `\d`. -/
def isDigitChar (c : Char) : Bool := '0' ≤ c && c ≤ '9'

/-- Python `str.strip()`: drop whitespace from both ends. -/
def pyStrip (s : List Char) : List Char :=
  ((s.dropWhile isWs).reverse.dropWhile isWs).reverse

/-- Python `str.startswith`. -/
def pyStartsWith (pre s : List Char) : Bool := pre.isPrefixOf s

/-- Python `sub in s` substring test. -/
def pyContains (sub s : List Char) : Bool := s.tails.any fun t => sub.isPrefixOf t

/-- Python `str.endswith`. -/
def pyEndsWith (suf s : List Char) : Bool := suf.isSuffixOf s

/-- Python `str.split(sep)` for a one-character separator. -/
def pySplitChar (sep : Char) (s : List Char) : List (List Char) :=
  match s with
  | [] => [[]]
  | c :: rest =>
    let r := pySplitChar sep rest
    if c = sep then [] :: r
    else
      match r with
      | [] => [[c]]
      | hd :: tl => (c :: hd) :: tl

/-- Python `'\n'.join(parts)` for a one-character separator. -/
def pyJoinChar (sep : Char) : List (List Char) → List Char
  | [] => []
  | [x] => x
  | x :: xs => x ++ sep :: pyJoinChar sep xs

/-! ### A tiny matcher for the regexes used by the database workflow

Every regex in `database_graph.py` is a sequence of: literal text, `\s+`,
`\s*`, `\w+`, `.*` and an optional trailing `(?:;|$)`; the one alternation
`(or|and)` is compiled into two alternative token sequences.  Boolean
`re.search` matchability is independent of greediness, so the matcher
below decides existence of a decomposition.  Python's `$` without
`re.MULTILINE` matches at the end of the string or just before a final
newline, and `.` does not match a newline. -/

/-- Character classes occurring in the patterns. -/
inductive CharCls
  | ws      -- `\s`
  | word    -- `\w`
  | dot     -- `.` (anything but a newline)
  deriving DecidableEq, Repr

def inCls : CharCls → Char → Bool
  | .ws, c => isWs c
  | .word, c => isWordChar c
  | .dot, c => c ≠ '\n'

/-- One token of a compiled pattern. -/
inductive RTok
  | lit (cs : List Char)   -- literal text
  | star (c : CharCls)     -- `X*`
  | plus (c : CharCls)     -- `X+`
  | semiOrEnd              -- the trailing `(?:;|$)`
  deriving Repr

/-- Suffixes reachable from `s` by consuming zero or more characters of
class `c` (i.e. all splits of `X*`). -/
def starDrops (c : CharCls) : List Char → List (List Char)
  | [] => [[]]
  | ch :: t => (ch :: t) :: (if inCls c ch then starDrops c t else [])

/-- Does the token sequence match a prefix of `s`?  (`s` is a suffix of the
searched string, so `s = []` is its end and `s = ['\n']` is the position
just before a final newline.) -/
def matchToks : List RTok → List Char → Bool
  | [], _ => true
  | .lit cs :: rest, s => cs.isPrefixOf s && matchToks rest (s.drop cs.length)
  | .star c :: rest, s => (starDrops c s).any fun t => matchToks rest t
  | .plus c :: rest, s =>
    match s with
    | [] => false
    | ch :: t => inCls c ch && (starDrops c t).any fun t2 => matchToks rest t2
  | .semiOrEnd :: _, s => s.isEmpty || s = ['\n'] || s.headD ' ' = ';'

/-- `re.search` over a list of alternative token sequences: some alternative
matches starting at some position. -/
def searchToks (alts : List (List RTok)) (s : List Char) : Bool :=
  s.tails.any fun t => alts.any fun a => matchToks a t

def litS (s : String) : RTok := .lit s.toList

/-- The single-quote character (written by code to avoid a literal quote). -/
def sq : Char := Char.ofNat 39

/-! ### `database_graph.py`: compiled patterns

`DatabaseQueryGraph.dangerous_patterns` (constructor, lines 44-58), paired
with the exact Python pattern source strings that the safety check records
in `dangerous_patterns` when they match. -/

def patDropTable : List (List RTok) := [[litS "drop", .plus .ws, litS "table"]]
def patDropDatabase : List (List RTok) := [[litS "drop", .plus .ws, litS "database"]]
def patDeleteNoWhere : List (List RTok) :=
  [[litS "delete", .plus .ws, litS "from", .plus .ws, .plus .word, .star .ws, .semiOrEnd]]
def patTruncateTable : List (List RTok) := [[litS "truncate", .plus .ws, litS "table"]]
def patAlterTable : List (List RTok) := [[litS "alter", .plus .ws, litS "table"]]
def patCreateTable : List (List RTok) := [[litS "create", .plus .ws, litS "table"]]
def patInsertInto : List (List RTok) := [[litS "insert", .plus .ws, litS "into"]]
def patUpdateSet : List (List RTok) :=
  [[litS "update", .plus .ws, .plus .word, .plus .ws, litS "set", .plus .ws, .star .dot, .semiOrEnd]]
def patGrant : List (List RTok) := [[litS "grant", .plus .ws]]
def patRevoke : List (List RTok) := [[litS "revoke", .plus .ws]]
def patExec : List (List RTok) := [[litS "exec", .star .ws, .lit ['(']]]
def patSp : List (List RTok) := [[litS "sp_", .plus .word]]
def patXp : List (List RTok) := [[litS "xp_", .plus .word]]

def dangerousPatternList : List (String × List (List RTok)) :=
  [ ("drop\\s+table", patDropTable),
    ("drop\\s+database", patDropDatabase),
    ("delete\\s+from\\s+\\w+\\s*(?:;|$)", patDeleteNoWhere),
    ("truncate\\s+table", patTruncateTable),
    ("alter\\s+table", patAlterTable),
    ("create\\s+table", patCreateTable),
    ("insert\\s+into", patInsertInto),
    ("update\\s+\\w+\\s+set\\s+.*(?:;|$)", patUpdateSet),
    ("grant\\s+", patGrant),
    ("revoke\\s+", patRevoke),
    ("exec\\s*\\(", patExec),
    ("sp_\\w+", patSp),
    ("xp_\\w+", patXp) ]

/-- `'.*?'.*?(or|and).*?'.*?'` — the alternation gives two alternatives;
laziness does not affect matchability. -/
def patQuoteOrAnd : List (List RTok) :=
  [ [.lit [sq], .star .dot, .lit [sq], .star .dot, litS "or",
     .star .dot, .lit [sq], .star .dot, .lit [sq]],
    [.lit [sq], .star .dot, .lit [sq], .star .dot, litS "and",
     .star .dot, .lit [sq], .star .dot, .lit [sq]] ]
def patUnionSelect : List (List RTok) := [[litS "union", .plus .ws, litS "select"]]

/-- The injection patterns checked by `_validate_sql_syntax`, with the Python
source strings used in its warning messages. -/
def injectionPatternList : List (String × List (List RTok)) :=
  [ ("\x27.*?\x27.*?(or|and).*?\x27.*?\x27", patQuoteOrAnd),
    ("union\\s+select", patUnionSelect),
    ("drop\\s+table", patDropTable),
    ("exec\\s*\\(", patExec) ]

/-! ### `database_graph.py`: safety check, validation, SQL extraction -/

/-- `safety_checks` record (`SafetyCheckResult` in the spec). -/
structure SafetyResult where
  isSafe : Bool
  riskLevel : String
  dangerousPatterns : List String
  recommendations : List String
  deriving DecidableEq, Repr

/-- `_perform_safety_checks` (database_graph.py lines 340-400), the pure
computation on `state["generated_sql"]` (already lower-cased at entry). -/
def safetyCheckSql (sqlRaw : List Char) : SafetyResult :=
  let sql := pyLower sqlRaw
  let hits := dangerousPatternList.filter fun p => searchToks p.2 sql
  let r0 : SafetyResult :=
    { isSafe := hits.isEmpty
      riskLevel := if hits.isEmpty then "low" else "high"
      dangerousPatterns := hits.map (·.1)
      recommendations := [] }
  let r1 :=
    if searchToks patDeleteNoWhere sql then
      { r0 with
          dangerousPatterns := r0.dangerousPatterns ++ ["DELETE without WHERE clause"]
          isSafe := false
          riskLevel := "high"
          recommendations := r0.recommendations ++ ["Add WHERE clause to DELETE statement"] }
    else r0
  let r2 :=
    if searchToks patUpdateSet sql && !(pyContains "where".toList sql) then
      { r1 with
          dangerousPatterns := r1.dangerousPatterns ++ ["UPDATE without WHERE clause"]
          isSafe := false
          riskLevel := "high"
          recommendations := r1.recommendations ++ ["Add WHERE clause to UPDATE statement"] }
    else r1
  let r3 :=
    if pyContains "select *".toList sql then
      { r2 with
          recommendations :=
            r2.recommendations ++ ["Consider selecting specific columns instead of *"]
          riskLevel := if r2.riskLevel = "low" then "medium" else r2.riskLevel }
    else r2
  if pyContains "select".toList sql && !(pyContains "limit".toList sql)
      && !(pyContains "top".toList sql) then
    { r3 with
        recommendations := r3.recommendations ++ ["Consider adding LIMIT clause for large datasets"] }
  else r3

/-- `validation_results` record. -/
structure ValidationResult where
  isValid : Bool
  errors : List String
  warnings : List String
  suggestions : List String
  deriving DecidableEq, Repr

/-- Python `str.rstrip()`. -/
def pyRStrip (s : List Char) : List Char := (s.reverse.dropWhile isWs).reverse

/-- `_validate_sql_syntax` (database_graph.py lines 274-328), the pure
computation on `state["generated_sql"]`. -/
def validateSql (sql : List Char) : ValidationResult :=
  let v0 : ValidationResult := ⟨true, [], [], []⟩
  let v1 :=
    if sql.isEmpty || pyStartsWith "--".toList (pyStrip sql) then
      { v0 with isValid := false, errors := v0.errors ++ ["No valid SQL generated"] }
    else v0
  let sqlLower := pyStrip (pyLower sql)
  let validStarts := ["select", "insert", "update", "delete", "with", "create", "alter", "drop"]
  let v2 :=
    if !(validStarts.any fun k => pyStartsWith k.toList sqlLower) then
      { v1 with warnings := v1.warnings ++ ["SQL doesn\x27t start with recognized keyword"] }
    else v1
  let v3 :=
    if sql.count '(' ≠ sql.count ')' then
      { v2 with errors := v2.errors ++ ["Unbalanced parentheses"], isValid := false }
    else v2
  let v4 :=
    if !(pyEndsWith ";".toList (pyRStrip sqlLower)) then
      { v3 with suggestions := v3.suggestions ++ ["Consider adding semicolon at end"] }
    else v3
  injectionPatternList.foldl
    (fun v p =>
      if searchToks p.2 sqlLower then
        { v with warnings := v.warnings ++ ["Potential security concern: " ++ p.1] }
      else v)
    v4

def sqlStartKeywords : List String :=
  ["select", "insert", "update", "delete", "with", "create", "alter"]

/-- The line loop of `_extract_sql_from_response` (lines 575-594):
accumulator `acc` is `sql_lines`, flag is `in_sql_block`. -/
def extractSqlGo : List (List Char) → List (List Char) → Bool → List (List Char)
  | [], acc, _ => acc
  | line :: rest, acc, inSql =>
    let l := pyStrip line
    if l.isEmpty || pyStartsWith "--".toList l || pyStartsWith "#".toList l then
      extractSqlGo rest (if acc.isEmpty then acc else acc ++ [l]) inSql
    else
      let inSql2 := inSql || sqlStartKeywords.any fun k => pyStartsWith k.toList (pyLower l)
      if inSql2 then
        let acc2 := acc ++ [l]
        if pyEndsWith ";".toList l then acc2
        else extractSqlGo rest acc2 inSql2
      else extractSqlGo rest acc inSql2

/-- `_extract_sql_from_response` (database_graph.py lines 569-596). -/
def extractSqlFromResponse (resp : List Char) : List Char :=
  let sqlLines := extractSqlGo (pySplitChar '\n' (pyStrip resp)) [] false
  if sqlLines.isEmpty then pyStrip resp else pyJoinChar '\n' sqlLines

/-- Append `current_query` to `alternatives` guarded by
`if query and query.lower().startswith('select')` (line 612). -/
def altPushGuardNonEmpty (alts : List (List Char)) (cur : List (List Char)) :
    List (List Char) :=
  let q := pyStrip (pyJoinChar '\n' cur)
  if !q.isEmpty && pyStartsWith "select".toList (pyLower q) then alts ++ [q] else alts

/-- Append `current_query` guarded by `if query.lower().startswith('select')`
(lines 624, 631). -/
def altPush (alts : List (List Char)) (cur : List (List Char)) : List (List Char) :=
  let q := pyStrip (pyJoinChar '\n' cur)
  if pyStartsWith "select".toList (pyLower q) then alts ++ [q] else alts

def altHeaderHeads : List String := ["alternative", "option", "approach"]

/-- The line loop of `_extract_alternative_queries` (lines 604-632). -/
def extractAltGo : List (List Char) → List (List Char) → List (List Char) → List (List Char)
  | [], alts, cur => if cur.isEmpty then alts else altPush alts cur
  | line :: rest, alts, cur =>
    let l := pyStrip line
    if l.isEmpty || altHeaderHeads.any (fun h => pyStartsWith h.toList (pyLower l)) then
      if cur.isEmpty then extractAltGo rest alts cur
      else extractAltGo rest (altPushGuardNonEmpty alts cur) []
    else if pyStartsWith "select".toList (pyLower l) || pyStartsWith "with".toList (pyLower l)
        || !cur.isEmpty then
      let cur2 := cur ++ [l]
      if pyEndsWith ";".toList l then extractAltGo rest (altPush alts cur2) []
      else extractAltGo rest alts cur2
    else extractAltGo rest alts cur

/-- `_extract_alternative_queries` (database_graph.py lines 598-634). -/
def extractAlternativeQueries (resp : List Char) : List (List Char) :=
  (extractAltGo (pySplitChar '\n' resp) [] []).take 3

/-- "begins with `select`, case-insensitively". -/
def isSelectPrefixed (q : List Char) : Bool := pyStartsWith "select".toList (pyLower q)

/-! ### `database_graph.py`: the workflow as a state machine

Model calls are the only effectful steps; each node's interaction with its
model is summarised by an oracle value: the model lookup found no model,
or the generation call returned text, or it raised (the node's `except`
arm runs). -/

/-- Outcome of one "get model, call it" interaction. -/
inductive MRes
  | noModel
  | ok (text : String)
  | err (msg : String)
  deriving DecidableEq, Repr

/-- One oracle value per model-calling node of the database workflow. -/
structure DbOracle where
  analyze : MRes
  gensql : MRes
  explain : MRes
  alts : MRes

/-- `DatabaseQueryState` (the fields the workflow writes; the two result
dicts start absent — `{}` — hence `Option`). -/
structure DbState where
  naturalQuery : String
  generatedSql : List Char
  sqlExplanation : List Char
  validationResults : Option ValidationResult
  safetyChecks : Option SafetyResult
  confidenceScore : ℚ
  alternativeQueries : List (List Char)
  queryType : Option String
  complexity : Option String
  trace : List String

/-- `_extract_query_type` (lines 534-540); input is the lower-cased
analysis text. -/
def extractQueryType (analysisLower : List Char) : String :=
  let types := ["select", "insert", "update", "delete", "create", "alter", "drop"]
  match types.find? (fun t => pyContains t.toList analysisLower) with
  | some t => t.toUpper
  | none => "UNKNOWN"

/-- `_extract_complexity` (lines 542-551). -/
def extractComplexity (analysisLower : List Char) : String :=
  if pyContains "complex".toList analysisLower then "complex"
  else if pyContains "medium".toList analysisLower then "medium"
  else if pyContains "simple".toList analysisLower then "simple"
  else "medium"

/-- `_analyze_natural_query` (lines 145-205).  Trace entries are projected
to "step:status" strings. -/
def analyzeNode (o : DbOracle) (s : DbState) : DbState :=
  match o.analyze with
  | .noModel => { s with trace := s.trace ++ ["analyze_query:error"] }
  | .ok t =>
    let lower := pyLower t.toList
    { s with
        queryType := some (extractQueryType lower)
        complexity := some (extractComplexity lower)
        trace := s.trace ++ ["analyze_query:success"] }
  | .err _ => { s with trace := s.trace ++ ["analyze_query:error"] }

/-- `_generate_sql_query` (lines 207-272); `noModel` covers both the
code-generation lookup and the text-generation fallback failing, which
returns before any trace entry. -/
def genSqlNode (o : DbOracle) (s : DbState) : DbState :=
  match o.gensql with
  | .noModel => { s with generatedSql := "-- Error: No suitable model available".toList }
  | .ok t =>
    { s with
        generatedSql := extractSqlFromResponse t.toList
        trace := s.trace ++ ["generate_sql:success"] }
  | .err m =>
    { s with
        generatedSql := ("-- Error generating SQL: " ++ m).toList
        trace := s.trace ++ ["generate_sql:error"] }

/-- `_validate_sql_syntax` (lines 274-338) — a pure computation. -/
def validateNode (s : DbState) : DbState :=
  let v := validateSql s.generatedSql
  { s with
      validationResults := some v
      trace := s.trace ++ [if v.isValid then "validate_sql:success" else "validate_sql:warning"] }

/-- `_perform_safety_checks` (lines 340-400) — a pure computation, plus the
confidence formula of lines 383-390. -/
def safetyNode (s : DbState) : DbState :=
  let r := safetyCheckSql s.generatedSql
  -- 0.5 base, +0.3 if safe, +0.2 if the validation reported valid syntax
  -- (summed over a common denominator of 10 so the value kernel-reduces)
  let confidence : ℚ :=
    mkRat (5 + (if r.isSafe then 3 else 0)
      + (if ((s.validationResults.map (·.isValid)).getD false) then 2 else 0)) 10
  { s with
      safetyChecks := some r
      confidenceScore := min confidence 1
      trace := s.trace ++ ["safety_check:success"] }

/-- `_is_query_safe` (lines 530-532): `safety_checks.get("is_safe", False)`. -/
def isQuerySafe (s : DbState) : Bool :=
  ((s.safetyChecks.map (·.isSafe)).getD false)

/-- `_explain_sql_query` (lines 412-459). -/
def explainNode (o : DbOracle) (s : DbState) : DbState :=
  if !isQuerySafe s then
    { s with sqlExplanation := "Query deemed unsafe - explanation skipped for security".toList }
  else
    match o.explain with
    | .noModel => { s with sqlExplanation := "No model available for explanation".toList }
    | .ok t =>
      { s with
          sqlExplanation := pyStrip t.toList
          trace := s.trace ++ ["explain_sql:success"] }
    | .err m => { s with sqlExplanation := ("Error generating explanation: " ++ m).toList }

/-- `_generate_alternative_queries` (lines 461-509). -/
def altsNode (o : DbOracle) (s : DbState) : DbState :=
  if !isQuerySafe s then { s with alternativeQueries := [] }
  else
    match o.alts with
    | .noModel => { s with alternativeQueries := [] }
    | .ok t =>
      if !pyStartsWith "select".toList (pyStrip (pyLower s.generatedSql)) then
        { s with alternativeQueries := [] }
      else
        { s with
            alternativeQueries := extractAlternativeQueries t.toList
            trace := s.trace ++ ["generate_alternatives:success"] }
    | .err _ => { s with alternativeQueries := [] }

/-- `_finalize_query_result` (lines 511-526); the metadata fold only copies
fields already in the state. -/
def finalizeDbNode (s : DbState) : DbState :=
  { s with trace := s.trace ++ ["finalize_result:complete"] }

/-- `process_query` (lines 103-141): the compiled graph
`analyze → generate_sql → validate → safety_check →
{safe: explain → alternatives | unsafe: skip} → finalize`. -/
def runDb (o : DbOracle) (query : String) : DbState :=
  let s0 : DbState :=
    { naturalQuery := query, generatedSql := [], sqlExplanation := []
      validationResults := none, safetyChecks := none, confidenceScore := 0
      alternativeQueries := [], queryType := none, complexity := none, trace := [] }
  let s4 := safetyNode (validateNode (genSqlNode o (analyzeNode o s0)))
  let s5 := if isQuerySafe s4 then altsNode o (explainNode o s4) else s4
  finalizeDbNode s5

/-! ### `content_graph.py`: quality-score extraction

`_extract_quality_score` tries four regexes in order on the lower-cased
text and falls back to positive/negative word counting.  The numeric
patterns are `\d+` with an optional `(?:\.\d+)?` fraction followed by
pattern-specific context; each is implemented as a leftmost scan with
maximal digit/whitespace runs, which here coincides with Python's
leftmost-then-greedy `re.search` (no character class overlaps the
literal that follows it; the optional fraction is tried first, as a
greedy `?` does). -/

/-- Split off the maximal leading digit run. -/
def readDigits : List Char → List Char × List Char
  | [] => ([], [])
  | c :: t =>
    if isDigitChar c then
      let (ds, r) := readDigits t
      (c :: ds, r)
    else ([], c :: t)

/-- Numeric value of a digit run. -/
def natVal (ds : List Char) : ℕ := ds.foldl (fun a c => 10 * a + (c.toNat - 48)) 0

/-- `float(group)` for a captured group with integer digits `ds` and
fraction digits `fs` (empty for an integer group), as the exact rational
`ds.fs`.  (Built with `mkRat` rather than `+`/`/` so that it evaluates by
kernel reduction.) -/
def groupVal (ds fs : List Char) : ℚ :=
  mkRat (natVal ds * 10 ^ fs.length + natVal fs) (10 ^ fs.length)

/-- Match `(\d+(?:\.\d+)?)` at the head of `s`, requiring the continuation
`k` to accept the rest; returns the captured value (fraction branch first,
as a greedy `?` backtracks). -/
def numThen (k : List Char → Bool) (s : List Char) : Option ℚ :=
  match readDigits s with
  | ([], _) => none
  | (ds, rest) =>
    match rest with
    | '.' :: r2 =>
      (match readDigits r2 with
       | ([], _) => if k rest then some (groupVal ds []) else none
       | (fs, r3) =>
         if k r3 then some (groupVal ds fs)
         else if k rest then some (groupVal ds []) else none)
    | _ => if k rest then some (groupVal ds []) else none

def wsDrop (s : List Char) : List Char := s.dropWhile isWs

/-- `re.search(r'(\d+(?:\.\d+)?)/10', s)`, returning the captured number. -/
def searchSlash10 (s : List Char) : Option ℚ :=
  s.tails.findSome? fun t => numThen (fun r => pyStartsWith "/10".toList r) t

/-- `re.search(r'score:\s*(\d+(?:\.\d+)?)', s)`. -/
def searchScoreColon (s : List Char) : Option ℚ :=
  s.tails.findSome? fun t =>
    if pyStartsWith "score:".toList t then numThen (fun _ => true) (wsDrop (t.drop 6))
    else none

/-- The `\s*out\s*of\s*10` continuation of the third pattern. -/
def outOf10After (r : List Char) : Bool :=
  let r1 := wsDrop r
  pyStartsWith "out".toList r1 &&
    (let r2 := wsDrop (r1.drop 3)
     pyStartsWith "of".toList r2 &&
       (let r3 := wsDrop (r2.drop 2)
        pyStartsWith "10".toList r3))

/-- `re.search(r'(\d+(?:\.\d+)?)\s*out\s*of\s*10', s)`. -/
def searchOutOf10 (s : List Char) : Option ℚ :=
  s.tails.findSome? fun t => numThen outOf10After t

/-- `re.search(r'quality:\s*(\d+(?:\.\d+)?)', s)`. -/
def searchQualityColon (s : List Char) : Option ℚ :=
  s.tails.findSome? fun t =>
    if pyStartsWith "quality:".toList t then numThen (fun _ => true) (wsDrop (t.drop 8))
    else none

def positiveWords : List String := ["excellent", "good", "great", "strong", "clear"]
def negativeWords : List String := ["poor", "weak", "unclear", "confusing", "lacking"]

/-- `score / 10.0` as a kernel-reducible operation (`q / 10 = q.num / (q.den * 10)`). -/
def ratDivTen (q : ℚ) : ℚ := mkRat q.num (q.den * 10)

/-- `_extract_quality_score` (content_graph.py lines 470-501).  Decimal
constants `0.7`, `0.4`, `0.6` are written `mkRat k 10`. -/
def extractQualityScore (evaluationText : List Char) : ℚ :=
  let lower := pyLower evaluationText
  match searchSlash10 lower with
  | some score => min (ratDivTen score) 1
  | none =>
  match searchScoreColon lower with
  | some score => min (ratDivTen score) 1
  | none =>
  match searchOutOf10 lower with
  | some score => min (ratDivTen score) 1
  | none =>
  match searchQualityColon lower with
  | some score => min (ratDivTen score) 1
  | none =>
    let positiveCount := (positiveWords.filter fun w => pyContains w.toList lower).length
    let negativeCount := (negativeWords.filter fun w => pyContains w.toList lower).length
    if positiveCount > negativeCount then mkRat 7 10
    else if negativeCount > positiveCount then mkRat 4 10
    else mkRat 6 10

/-! ### `content_graph.py`: the refinement workflow as a state machine -/

/-- One oracle value per model interaction of the content workflow; the
per-iteration functions give the response of that node's model call when
`current_iteration` has the given value. -/
structure CgOracle where
  initial : MRes
  evalResp : ℕ → MRes
  feedbackResp : ℕ → MRes
  refineResp : ℕ → MRes

/-- `ContentGenerationState` (the fields the workflow writes). -/
structure CgState where
  prompt : String
  generatedContent : List Char
  refinementCriteria : List String
  currentIteration : ℕ
  maxIterations : ℕ
  qualityScore : ℚ
  feedback : List String
  finalContent : List Char
  trace : List String

/-- The quality score the evaluation node computes at iteration `i` when
refinement criteria are non-empty (content_graph.py lines 287-338):
no analysis model → 0.7; a response → extracted score; an exception → 0.5. -/
def cgEvalScoreAt (o : CgOracle) (i : ℕ) : ℚ :=
  match o.evalResp i with
  | .noModel => mkRat 7 10
  | .ok t => extractQualityScore t.toList
  | .err _ => mkRat 5 10

/-- `_generate_initial_content` (lines 223-271): on success sets the content
and `current_iteration = 1`; on failure (no model raises, or the call
raises) the except arm stores an error string and leaves the iteration
counter untouched. -/
def generateInitialNode (o : CgOracle) (s : CgState) : CgState :=
  match o.initial with
  | .ok t =>
    { s with
        generatedContent := t.toList
        currentIteration := 1
        trace := s.trace ++ ["generate_initial"] }
  | .noModel =>
    { s with
        generatedContent :=
          "Error generating content: No suitable model available for content generation".toList }
  | .err m => { s with generatedContent := ("Error generating content: " ++ m).toList }

/-- `_evaluate_content_quality` (lines 273-339); the except arm (score 0.5)
appends no trace entry. -/
def evaluateNode (o : CgOracle) (s : CgState) : CgState :=
  if s.refinementCriteria.isEmpty then
    { s with
        qualityScore := mkRat 8 10
        trace := s.trace ++ ["evaluate_quality:no_criteria"] }
  else
    match o.evalResp s.currentIteration with
    | .noModel =>
      { s with
          qualityScore := mkRat 7 10
          trace := s.trace ++ ["evaluate_quality:no_evaluation_model"] }
    | .ok t =>
      { s with
          qualityScore := extractQualityScore t.toList
          trace := s.trace ++ ["evaluate_quality"] }
    | .err _ => { s with qualityScore := mkRat 5 10 }

/-- `_generate_feedback` (lines 341-385).  When a model responds,
`_parse_feedback` raises `NameError` (`re` is imported only inside
`_extract_quality_score`, not at module level), so the except arm stores
`["Error generating feedback"]`; no branch reaches the trace append. -/
def feedbackNode (o : CgOracle) (s : CgState) : CgState :=
  match o.feedbackResp s.currentIteration with
  | .noModel => { s with feedback := ["No feedback model available"] }
  | .ok _ => { s with feedback := ["Error generating feedback"] }
  | .err _ => { s with feedback := ["Error generating feedback"] }

/-- `_refine_content` (lines 387-436): every arm increments the iteration
counter; only a successful call replaces the content and traces. -/
def refineNode (o : CgOracle) (s : CgState) : CgState :=
  match o.refineResp s.currentIteration with
  | .noModel => { s with currentIteration := s.currentIteration + 1 }
  | .ok t =>
    { s with
        generatedContent := t.toList
        currentIteration := s.currentIteration + 1
        trace := s.trace ++ ["refine_content"] }
  | .err _ => { s with currentIteration := s.currentIteration + 1 }

/-- `_finalize_content` (lines 438-449). -/
def finalizeContentNode (s : CgState) : CgState :=
  { s with finalContent := s.generatedContent, trace := s.trace ++ ["finalize_content"] }

/-- `_should_refine` (lines 453-468), as the truth of the "refine" branch. -/
def shouldRefine (s : CgState) : Bool :=
  if s.currentIteration ≥ s.maxIterations then false
  else if s.qualityScore ≥ mkRat 8 10 then false
  else if s.refinementCriteria.isEmpty then false
  else true

/-- The `evaluate_quality → {refine loop | finalize}` cycle; the second
component counts executions of the refinement cycle
(`generate_feedback` followed by `refine_content`).  Fuel is only a
termination device: every refinement increments `current_iteration` and
the decision finalizes once it reaches `max_iterations`. -/
def cgLoop (o : CgOracle) : ℕ → CgState → ℕ → CgState × ℕ
  | 0, s, n => (s, n)
  | fuel + 1, s, n =>
    let s1 := evaluateNode o s
    if shouldRefine s1 then cgLoop o fuel (refineNode o (feedbackNode o s1)) (n + 1)
    else (finalizeContentNode s1, n)

/-- `generate_with_refinement` (lines 120-159): fresh state with
`current_iteration = 0`, then `generate_initial` and the evaluation loop.
Returns the final state and the number of refinement cycles performed. -/
def runRefinement (o : CgOracle) (prompt : String) (criteria : List String)
    (maxIter : ℕ) : CgState × ℕ :=
  let s0 : CgState :=
    { prompt := prompt, generatedContent := [], refinementCriteria := criteria
      currentIteration := 0, maxIterations := maxIter, qualityScore := 0
      feedback := [], finalContent := [], trace := [] }
  cgLoop o (maxIter + 1) (generateInitialNode o s0) 0

/-! ### `models/base.py`: `ModelPool`

All pool methods wrap their bodies in `async with self._lock`; the lock is
a non-reentrant `asyncio.Lock`, so acquiring it while it is already held
by the same task blocks forever.  Operations therefore return
`Option PoolState`: `none` means the call never completes. -/

/-- Pool bookkeeping: entries are `model key ↦ usage counter` in dict
insertion order; `cleaned` records the keys whose instance `cleanup()`
has run; `locked` is the state of `self._lock`. -/
structure PoolState where
  maxModels : ℕ
  entries : List (String × ℕ)
  locked : Bool
  cleaned : List String
  deriving DecidableEq, Repr

/-- `async with self._lock:` entry — blocks forever if already held. -/
def lockAcquire (p : PoolState) : Option PoolState :=
  if p.locked then none else some { p with locked := true }

/-- `async with self._lock:` exit. -/
def lockRelease (p : PoolState) : PoolState := { p with locked := false }

/-- Python dict assignment `d[k] = v`: overwrite in place or append. -/
def dictSet (k : String) (v : ℕ) (l : List (String × ℕ)) : List (String × ℕ) :=
  if l.any (fun e => e.1 = k) then l.map (fun e => if e.1 = k then (k, v) else e)
  else l ++ [(k, v)]

/-- `ModelPool.get_model` (lines 239-245): under the lock, bump the usage
counter and report whether the key was pooled. -/
def poolGetModel (k : String) (p : PoolState) : Option (PoolState × Bool) :=
  (lockAcquire p).map fun p1 =>
    if p1.entries.any (fun e => e.1 = k) then
      (lockRelease
        { p1 with entries := p1.entries.map fun e => if e.1 = k then (e.1, e.2 + 1) else e },
       true)
    else (lockRelease p1, false)

/-- `ModelPool.remove_model` (lines 257-263): acquires the lock itself. -/
def poolRemoveModel (k : String) (p : PoolState) : Option PoolState :=
  (lockAcquire p).map fun p1 =>
    if p1.entries.any (fun e => e.1 = k) then
      lockRelease
        { p1 with
            entries := p1.entries.filter (fun e => e.1 ≠ k)
            cleaned := p1.cleaned ++ [k] }
    else lockRelease p1

/-- `min(self._usage_count, key=self._usage_count.get)`: the first key in
insertion order carrying the minimal usage counter. -/
def leastUsedKey (l : List (String × ℕ)) : String :=
  match l with
  | [] => ""
  | e :: t => (t.foldl (fun best x => if x.2 < best.2 then x else best) e).1

/-- `ModelPool._evict_least_used` (lines 265-271): delegates to
`remove_model`, which re-acquires the lock. -/
def poolEvictLeastUsed (p : PoolState) : Option PoolState :=
  if p.entries.isEmpty then some p
  else poolRemoveModel (leastUsedKey p.entries) p

/-- `ModelPool.add_model` (lines 247-255): under the lock, evict when at
capacity, then insert with usage counter 0. -/
def poolAddModel (k : String) (p : PoolState) : Option PoolState :=
  (lockAcquire p).bind fun p1 =>
    (if p1.entries.length ≥ p1.maxModels then poolEvictLeastUsed p1 else some p1).map fun p2 =>
      lockRelease { p2 with entries := dictSet k 0 p2.entries }

/-- `ModelPool.cleanup_all` (lines 273-279). -/
def poolCleanupAll (p : PoolState) : Option PoolState :=
  (lockAcquire p).map fun p1 =>
    lockRelease
      { p1 with cleaned := p1.cleaned ++ p1.entries.map (·.1), entries := [] }

/-! ### `models/base.py` / `utils/model_manager.py`: capabilities, selection -/

/-- `ModelCapability`. -/
inductive ModelCapability
  | textGeneration
  | chat
  | codeGeneration
  | embedding
  | reasoning
  | analysis
  deriving DecidableEq, Repr

/-- `ModelProvider`. -/
inductive ModelProvider
  | ollama
  | openai
  | anthropic
  | localProvider
  deriving DecidableEq, Repr

def providerValue : ModelProvider → String
  | .ollama => "ollama"
  | .openai => "openai"
  | .anthropic => "anthropic"
  | .localProvider => "local"

/-- `ModelManager._get_model_provider` (lines 457-464). -/
def getModelProvider (name : String) : ModelProvider :=
  if pyStartsWith "gpt-".toList name.toList
      || pyStartsWith "text-embedding".toList name.toList then .openai
  else if pyStartsWith "claude-".toList name.toList then .anthropic
  else .ollama

/-- The `priority_map` of `_prioritize_models` (lines 409-431) with its
capability-specific overrides; `get_priority` defaults unlisted names
to 0. -/
def capPriority (capability : Option ModelCapability) (name : String) : ℕ :=
  let base : ℕ :=
    if name = "llama2" then 10
    else if name = "mistral" then 9
    else if name = "codellama" then 8
    else if name = "neural-chat" then 7
    else if name = "gpt-3.5-turbo" then 6
    else if name = "claude-3-haiku-20240307" then 5
    else if name = "gpt-4" then 4
    else if name = "claude-3-sonnet-20240229" then 3
    else if name = "claude-3-opus-20240229" then 2
    else if name = "gpt-4-turbo" then 1
    else 0
  match capability with
  | some .codeGeneration =>
    if name = "codellama" then 15 else if name = "gpt-4" then 12 else base
  | some .embedding =>
    if name = "text-embedding-ada-002" then 15
    else if name = "all-MiniLM-L6-v2" then 12
    else base
  | _ => base

/-- `_prioritize_models` (lines 403-437): `sorted(candidates,
key=get_priority, reverse=True)` — a stable descending sort. -/
def prioritizeModels (candidates : List String) (capability : Option ModelCapability) :
    List String :=
  List.insertionSort (fun a b => capPriority capability b ≤ capPriority capability a) candidates

/-- `self.model_capabilities` as an association list in insertion order. -/
def capsLookup (m : List (String × List ModelCapability)) (n : String) :
    Option (List ModelCapability) :=
  (m.find? (fun e => e.1 = n)).map (·.2)

/-- The three shapes `_select_model` can return: Python `None`, a plain
string (known-name path, line 357/362), or — in the capability-search
path (line 381) — the entire prioritized list. -/
inductive SelectResult
  | noneFound
  | name (n : String)
  | prioritized (l : List String)
  deriving DecidableEq, Repr

/-- `ModelManager._select_model` (lines 344-381). -/
def selectModel (modelCapabilities : List (String × List ModelCapability))
    (modelName : Option String) (capability : Option ModelCapability)
    (provider : Option String) : SelectResult :=
  let known : Option String :=
    match modelName with
    | some n =>
      match capsLookup modelCapabilities n with
      | some caps =>
        match capability with
        | some c => if caps.contains c then some n else none
        | none => some n
      | none => none
    | none => none
  match known with
  | some n => .name n
  | none =>
    let candidates :=
      (modelCapabilities.filter fun e =>
        (match capability with
         | some c => e.2.contains c
         | none => true) &&
        (match provider with
         | some p => providerValue (getModelProvider e.1) = p
         | none => true)).map (·.1)
    if candidates.isEmpty then .noneFound
    else .prioritized (prioritizeModels candidates capability)

/-! ### capability inference: adapter rule vs. manager rule -/

/-- `OllamaModel._infer_capabilities` (ollama.py lines 118-129) — the §4.3
rule: text-generation + chat for everyone, code-generation for names
containing "code", reasoning + analysis for names containing "llama",
"mistral" or "neural-chat". -/
def inferCapabilitiesOllama (modelName : String) : List ModelCapability :=
  let lower := pyLower modelName.toList
  let caps := [ModelCapability.textGeneration, ModelCapability.chat]
  let caps := if pyContains "code".toList lower then caps ++ [.codeGeneration] else caps
  if ["llama", "mistral", "neural-chat"].any (fun n => pyContains n.toList lower) then
    caps ++ [.reasoning, .analysis]
  else caps

/-- `ModelManager._infer_model_capabilities` (model_manager.py lines
466-489) — the rule discovery actually uses: chat unless the name starts
with "text-embedding"; reasoning + analysis for names containing "13b",
"70b", "gpt-4" or "claude-3"; names containing "embedding" or "minilm"
get exactly `[embedding]`. -/
def inferModelCapabilitiesManager (modelName : String) : List ModelCapability :=
  let lower := pyLower modelName.toList
  let caps := [ModelCapability.textGeneration]
  let caps := if !(pyStartsWith "text-embedding".toList lower) then caps ++ [.chat] else caps
  let caps := if pyContains "code".toList lower then caps ++ [.codeGeneration] else caps
  let caps :=
    if ["13b", "70b", "gpt-4", "claude-3"].any (fun t => pyContains t.toList lower) then
      caps ++ [.reasoning, .analysis]
    else caps
  if pyContains "embedding".toList lower || pyContains "minilm".toList lower then
    [.embedding]
  else caps

/-- `ModelManager._discover_ollama_models` (lines 287-304): for every name
listed by the daemon, record `self._infer_model_capabilities(name)` in
`self.model_capabilities`.  (Duplicate names would overwrite with the
same value, so insertion-order association is faithful.) -/
def discoverOllamaModels (availableModels : List String) :
    List (String × List ModelCapability) :=
  availableModels.map fun n => (n, inferModelCapabilitiesManager n)

/-! ### provider adapters: initialization guards (`C6`) -/

/-- The adapter fields the guards read: `self._client is not None` and
`self._is_available`. -/
structure AdapterState where
  clientSome : Bool
  isAvailable : Bool
  deriving DecidableEq, Repr

/-- A freshly constructed adapter (`__init__`): `_client = None`,
`_is_available = False`. -/
def freshAdapter : AdapterState := ⟨false, false⟩

inductive AdapterError
  | notInitialized
  | backendFailed (msg : String)
  deriving DecidableEq, Repr

/-- Negation of the shared guard
`if not self._client or not self._is_available: raise RuntimeError(...)`. -/
def adapterReady (s : AdapterState) : Bool := s.clientSome && s.isAvailable

/-- The common shape of every guarded operation: raise `RuntimeError`
("Model not initialized or unavailable") unless ready, then surface the
backend outcome. -/
def guardedOp (s : AdapterState) (backend : Except String String) :
    Except AdapterError String :=
  if !adapterReady s then .error .notInitialized
  else
    match backend with
    | .ok t => .ok t
    | .error m => .error (.backendFailed m)

/-- Same guard for the embedding operations (result: one vector per text). -/
def guardedEmbed (s : AdapterState) (backend : List (List ℚ)) :
    Except AdapterError (List (List ℚ)) :=
  if !adapterReady s then .error .notInitialized else .ok backend

-- ollama.py: generate (line 154), chat (209), stream_generate (274),
-- stream_chat (318), embed (369) all open with the guard.
def ollamaGenerate : AdapterState → Except String String → Except AdapterError String := guardedOp
def ollamaChat : AdapterState → Except String String → Except AdapterError String := guardedOp
def ollamaStreamGenerate : AdapterState → Except String String → Except AdapterError String := guardedOp
def ollamaStreamChat : AdapterState → Except String String → Except AdapterError String := guardedOp
def ollamaEmbed : AdapterState → List (List ℚ) → Except AdapterError (List (List ℚ)) := guardedEmbed

-- openai.py: generate (143), chat (190), stream_generate (243),
-- stream_chat (275), embed (312) all open with the guard.
def openaiGenerate : AdapterState → Except String String → Except AdapterError String := guardedOp
def openaiChat : AdapterState → Except String String → Except AdapterError String := guardedOp
def openaiStreamGenerate : AdapterState → Except String String → Except AdapterError String := guardedOp
def openaiStreamChat : AdapterState → Except String String → Except AdapterError String := guardedOp
def openaiEmbed : AdapterState → List (List ℚ) → Except AdapterError (List (List ℚ)) := guardedEmbed

-- anthropic.py: generate (159), chat (209), stream_generate (277),
-- stream_chat (307) open with the guard; embed (348-369) does not.
def anthropicGenerate : AdapterState → Except String String → Except AdapterError String := guardedOp
def anthropicChat : AdapterState → Except String String → Except AdapterError String := guardedOp
def anthropicStreamGenerate : AdapterState → Except String String → Except AdapterError String := guardedOp
def anthropicStreamChat : AdapterState → Except String String → Except AdapterError String := guardedOp

/-- `AnthropicModel.embed` (anthropic.py lines 348-369): no initialization
check — it always returns a 1536-dimension all-zero vector per input
text (with a warning in metadata). -/
def anthropicEmbed (_s : AdapterState) (texts : List String) :
    Except AdapterError (List (List ℚ)) :=
  .ok (texts.map fun _ => List.replicate 1536 (0 : ℚ))

/-! ### `AnthropicModel.chat` / `stream_chat`: system-message handling -/

/-- `ChatMessage` as consumed by the conversion loops. -/
structure ChatMessageV where
  role : String
  content : String
  deriving DecidableEq, Repr

/-- The message loop shared by `chat` (lines 218-225) and `stream_chat`
(lines 316-323): each system message overwrites `system_message`, every
other message is appended in order. -/
def anthropicConvertGo :
    List ChatMessageV → Option String → List ChatMessageV →
      Option String × List ChatMessageV
  | [], sys, acc => (sys, acc)
  | m :: rest, sys, acc =>
    if m.role = "system" then anthropicConvertGo rest (some m.content) acc
    else anthropicConvertGo rest sys (acc ++ [m])

/-- `AnthropicModel.chat` (lines 202-242): the `system` kwarg is set only
when the final `system_message` is truthy (line 236). -/
def anthropicChatConvert (messages : List ChatMessageV) :
    Option String × List ChatMessageV :=
  let r := anthropicConvertGo messages none []
  ((match r.1 with
    | some c => if c = "" then none else some c
    | none => none),
   r.2)

/-- `AnthropicModel.stream_chat` (lines 300-342): identical conversion and
`system` kwarg handling (line 334). -/
def anthropicStreamChatConvert (messages : List ChatMessageV) :
    Option String × List ChatMessageV :=
  let r := anthropicConvertGo messages none []
  ((match r.1 with
    | some c => if c = "" then none else some c
    | none => none),
   r.2)

/-! ### `services/embeddings.py`: `similarity_search` top-k selection

The embedding backend is external; the cosine similarities it induces are
taken as an input list (one rational per document).  What is embedded
from the source is the selection of lines 212-220:
`np.argsort(similarities)[-top_k:][::-1]` and the per-index result
records. -/

/-- `np.argsort`: indices of `sims` sorted by ascending value (tie order
is unspecified in numpy's default sort; any value-sorted permutation has
the properties proved here). -/
def argsortAsc (sims : List ℚ) : List ℕ :=
  List.insertionSort (fun i j => sims.getD i 0 ≤ sims.getD j 0) (List.range sims.length)

/-- Python slice `l[-k:]` (for `k = 0` it is `l[0:]`, the whole list). -/
def pySliceLast {α : Type} (k : ℕ) (l : List α) : List α :=
  if k = 0 then l else l.drop (l.length - k)

/-- `similarity_search` (embeddings.py lines 191-230), given the cosine
similarities of the query against each document: top-k indices in
descending similarity order, each with its document text, similarity and
original index. -/
def similaritySearchSelect (sims : List ℚ) (docs : List String) (topK : ℕ) :
    List (String × ℚ × ℕ) :=
  let topIndices := (pySliceLast topK (argsortAsc sims)).reverse
  topIndices.map fun idx => (docs.getD idx "", sims.getD idx 0, idx)

/-! ### Concrete instances used by the claim theorems -/

/-- A run of the content workflow whose every evaluation reads "3/10"
(score 0.3) and whose every model call succeeds. -/
def c1Oracle : CgOracle :=
  { initial := .ok "draft", evalResp := fun _ => .ok "3/10",
    feedbackResp := fun _ => .ok "fb", refineResp := fun _ => .ok "v2" }

/-- Claim C1 as stated: with non-empty refinement criteria,
`max_iterations = 3` and a successful initial generation, a run whose
every quality evaluation scores below 0.8 performs exactly 3 refinement
cycles, and a run whose first evaluation scores ≥ 0.8 performs 0. -/
def contentClaimC1 : Prop :=
  ∀ (o : CgOracle) (p t : String) (crit : List String),
    crit ≠ [] →
    o.initial = .ok t →
    ((∀ i, cgEvalScoreAt o i < mkRat 8 10) → (runRefinement o p crit 3).2 = 3) ∧
    (mkRat 8 10 ≤ cgEvalScoreAt o 1 → (runRefinement o p crit 3).2 = 0)

/-- A pool at capacity 3 with usage counters [5, 1, 3] (spec §8.5). -/
def c3Pool : PoolState :=
  { maxModels := 3, entries := [("a", 5), ("b", 1), ("c", 3)], locked := false, cleaned := [] }

/-- A database-workflow run whose generated SQL is `DELETE FROM users`. -/
def c4Oracle : DbOracle :=
  { analyze := .noModel, gensql := .ok "DELETE FROM users",
    explain := .noModel, alts := .noModel }

/-- The local-daemon model catalog of §4.1. -/
def c5Catalog : List String :=
  ["llama2", "llama2:13b", "codellama", "mistral", "neural-chat"]

/-- Known-model table with `codellama` and `gpt-4` both code-generation
capable (the capability sets of the OpenAI adapter's metadata table give
`gpt-4` code-generation). -/
def c7CodeGenCaps : List (String × List ModelCapability) :=
  [ ("codellama", [.textGeneration, .chat, .codeGeneration]),
    ("gpt-4", [.textGeneration, .chat, .reasoning, .analysis, .codeGeneration]) ]

/-- Known-model table with `llama2`, `gpt-4` and the claude-3-opus model
all text-generation capable. -/
def c7TextGenCaps : List (String × List ModelCapability) :=
  [ ("llama2", [.textGeneration, .chat]),
    ("gpt-4", [.textGeneration, .chat, .reasoning]),
    ("claude-3-opus-20240229", [.textGeneration, .chat, .reasoning]) ]

/-- Two system messages around a user message. -/
def c10Msgs : List ChatMessageV :=
  [⟨"system", "first"⟩, ⟨"user", "u"⟩, ⟨"system", "second"⟩]

/-- Similarities [0.9, 0.1, 0.5, 0.95, 0.3] (spec §8.8). -/
def c9Sims : List ℚ := [mkRat 9 10, mkRat 1 10, mkRat 1 2, mkRat 19 20, mkRat 3 10]

def c9Docs : List String := ["d0", "d1", "d2", "d3", "d4"]

/-! ## Theorems -/

/-- C2: the spec claims the UPDATE dangerous pattern fires only for UPDATE
statements with no WHERE clause.  In the code the pattern
`update\s+\w+\s+set\s+.*(?:;|$)` matches every `UPDATE … SET …`
statement (`.*` happily spans the WHERE clause), so an UPDATE carrying a
WHERE clause and matching no other dangerous pattern is still recorded
as dangerous, `is_safe` is false and the risk level is "high" —
contradicting the code's own inline comment "UPDATE without WHERE". -/
theorem c2_update_with_where_flagged :
    safetyCheckSql "UPDATE users SET active = 1 WHERE id = 5;".toList =
      { isSafe := false
        riskLevel := "high"
        dangerousPatterns := ["update\\s+\\w+\\s+set\\s+.*(?:;|$)"]
        recommendations := [] } := by decide

/-- C3: the spec claims `add_model` on a full pool evicts the least-used
entry and inserts the new one.  In the code `add_model` holds the
non-reentrant `asyncio.Lock` when it calls `_evict_least_used`, which
calls `remove_model`, which tries to acquire the same lock again — the
call deadlocks and never completes (`none`), evicting and inserting
nothing.  The least-used entry that the intent would evict is "b". -/
theorem c3_add_at_capacity_deadlocks :
    poolAddModel "d" c3Pool = none ∧
      c3Pool.entries.length = c3Pool.maxModels ∧
      leastUsedKey c3Pool.entries = "b" ∧
      poolAddModel "d" { c3Pool with entries := [("a", 5), ("b", 1)] } =
        some { maxModels := 3, entries := [("a", 5), ("b", 1), ("d", 0)],
               locked := false, cleaned := [] } := by decide

/-- C7: the claim (and the spec) say the capability-search path of model
selection returns the single highest-priority candidate (codellama under
the code-generation override 15 > 12, llama2 at default priority 10).
The code's `_select_model` instead returns the entire prioritized list
(its annotation says `Optional[str]`); the claimed winner is merely the
head of that list, and `get_model` subsequently fails on the unhashable
list key.  This theorem evaluates the code at both claimed scenarios. -/
theorem c7_select_returns_whole_list :
    selectModel c7CodeGenCaps none (some .codeGeneration) none =
        .prioritized ["codellama", "gpt-4"] ∧
      capPriority (some .codeGeneration) "codellama" = 15 ∧
      capPriority (some .codeGeneration) "gpt-4" = 12 ∧
      selectModel c7TextGenCaps none (some .textGeneration) none =
        .prioritized ["llama2", "gpt-4", "claude-3-opus-20240229"] ∧
      capPriority none "llama2" = 10 := by decide

/-- C5 (counterexample): "mistral" is discovered with capability set
{text-generation, chat} — the manager's own inference rule — whereas the
§4.3 adapter rule cited by the claim would give it reasoning and
analysis as well. -/
theorem c5_counterexample :
    capsLookup (discoverOllamaModels ["mistral"]) "mistral" =
        some [.textGeneration, .chat] ∧
      inferCapabilitiesOllama "mistral" =
        [.textGeneration, .chat, .reasoning, .analysis] ∧
      capsLookup (discoverOllamaModels ["mistral"]) "mistral" ≠
        some (inferCapabilitiesOllama "mistral") := by decide

/-- C6 (counterexample): the cloud-B adapter's `embed`, called on a freshly
constructed (never initialized) adapter, returns a result — one
1536-dimension all-zero vector per text — instead of failing with a
not-initialized error. -/
theorem c6_counterexample :
    anthropicEmbed freshAdapter ["hello"] = .ok [List.replicate 1536 (0 : ℚ)] ∧
      anthropicEmbed freshAdapter ["hello"] ≠ .error .notInitialized :=
  ⟨rfl, fun h => Except.noConfusion h⟩

/-- C6 (amended): every generate/chat/stream/embed operation of the three
provider adapters fails with the not-initialized error when called
before a successful `initialize()` (client absent or unavailable, the
exact guard condition) — except the cloud-B (Anthropic-style) adapter's
`embed`, which performs no initialization check and returns its
placeholder all-zero-vector response regardless. -/
theorem c6_guards_except_anthropic_embed :
    ∀ (s : AdapterState) (b : Except String String) (v : List (List ℚ))
      (texts : List String),
      adapterReady s = false →
      ollamaGenerate s b = .error .notInitialized ∧
      ollamaChat s b = .error .notInitialized ∧
      ollamaStreamGenerate s b = .error .notInitialized ∧
      ollamaStreamChat s b = .error .notInitialized ∧
      ollamaEmbed s v = .error .notInitialized ∧
      openaiGenerate s b = .error .notInitialized ∧
      openaiChat s b = .error .notInitialized ∧
      openaiStreamGenerate s b = .error .notInitialized ∧
      openaiStreamChat s b = .error .notInitialized ∧
      openaiEmbed s v = .error .notInitialized ∧
      anthropicGenerate s b = .error .notInitialized ∧
      anthropicChat s b = .error .notInitialized ∧
      anthropicStreamGenerate s b = .error .notInitialized ∧
      anthropicStreamChat s b = .error .notInitialized ∧
      anthropicEmbed s texts = .ok (texts.map fun _ => List.replicate 1536 (0 : ℚ)) := by
  intro s b v texts h
  have hg : guardedOp s b = .error .notInitialized := by
    unfold guardedOp
    rw [h]
    rfl
  have he : guardedEmbed s v = .error .notInitialized := by
    unfold guardedEmbed
    rw [h]
    rfl
  exact ⟨hg, hg, hg, hg, he, hg, hg, hg, hg, he, hg, hg, hg, hg, rfl⟩

/-- Witness for C6's amended theorem at the freshly constructed adapter. -/
theorem c6_witness :
    adapterReady freshAdapter = false ∧
      ollamaGenerate freshAdapter (.ok "hi") = .error .notInitialized ∧
      anthropicEmbed freshAdapter ["hello"] =
        .ok (["hello"].map fun _ => List.replicate 1536 (0 : ℚ)) :=
  ⟨rfl,
   (c6_guards_except_anthropic_embed freshAdapter (.ok "hi") [[1]] ["hello"] rfl).1,
   (c6_guards_except_anthropic_embed freshAdapter (.ok "hi") [[1]]
       ["hello"] rfl).2.2.2.2.2.2.2.2.2.2.2.2.2.2⟩

/-- C5 (amended): Model Manager discovery records, for every model name
listed by the local daemon, the manager's own inference
`_infer_model_capabilities` — text-generation always; chat unless the
name starts with "text-embedding"; code-generation for names containing
"code"; reasoning + analysis for names containing "13b", "70b", "gpt-4"
or "claude-3"; exactly {embedding} for names containing "embedding" or
"minilm" — not the adapter's §4.3 rule.  On the §4.1 catalog this yields
the listed sets (in particular llama2 and mistral get no
reasoning/analysis, and codellama no reasoning/analysis either). -/
theorem c5_discovery_records_manager_rule :
    (∀ (names : List String) (n : String), n ∈ names →
        capsLookup (discoverOllamaModels names) n =
          some (inferModelCapabilitiesManager n)) ∧
      discoverOllamaModels c5Catalog =
        [ ("llama2", [.textGeneration, .chat]),
          ("llama2:13b", [.textGeneration, .chat, .reasoning, .analysis]),
          ("codellama", [.textGeneration, .chat, .codeGeneration]),
          ("mistral", [.textGeneration, .chat]),
          ("neural-chat", [.textGeneration, .chat]) ] := by
  constructor
  · intro names n hmem
    induction names with
    | nil => simp at hmem
    | cons hd tl ih =>
      by_cases hEq : hd = n
      · subst hEq
        simp [discoverOllamaModels, capsLookup, List.find?]
      · have hmem2 : n ∈ tl := by
          rcases List.mem_cons.mp hmem with h1 | h2
          · exact absurd h1.symm hEq
          · exact h2
        have hih := ih hmem2
        simpa [discoverOllamaModels, capsLookup, List.find?, hEq] using hih
  · decide

/-- Witness for C5's amended theorem at the catalog name "llama2". -/
theorem c5_witness :
    capsLookup (discoverOllamaModels ["llama2"]) "llama2" =
      some (inferModelCapabilitiesManager "llama2") :=
  c5_discovery_records_manager_rule.1 ["llama2"] "llama2" (by simp)

/-- C8: quality-score extraction — "8/10" scores 0.8, "score: 7" scores
0.7, "9 out of 10" scores 0.9, three positive words against one negative
word score 0.7, no signal scores 0.6, and every extracted score is at
most 1 (numeric matches are divided by 10 and clamped). -/
theorem c8_quality_scores :
    extractQualityScore "8/10".toList = 8/10 ∧
      extractQualityScore "score: 7".toList = 7/10 ∧
      extractQualityScore "9 out of 10".toList = 9/10 ∧
      extractQualityScore "excellent good great poor".toList = 7/10 ∧
      extractQualityScore "nothing noteworthy".toList = 6/10 ∧
      ∀ s : List Char, extractQualityScore s ≤ 1 := by
  refine ⟨?_, ?_, ?_, ?_, ?_, ?_⟩
  · rw [show extractQualityScore "8/10".toList = mkRat 8 10 from by decide,
      Rat.mkRat_eq_div]
    norm_num
  · rw [show extractQualityScore "score: 7".toList = mkRat 7 10 from by decide,
      Rat.mkRat_eq_div]
    norm_num
  · rw [show extractQualityScore "9 out of 10".toList = mkRat 9 10 from by decide,
      Rat.mkRat_eq_div]
    norm_num
  · rw [show extractQualityScore "excellent good great poor".toList = mkRat 7 10 from by decide,
      Rat.mkRat_eq_div]
    norm_num
  · rw [show extractQualityScore "nothing noteworthy".toList = mkRat 6 10 from by decide,
      Rat.mkRat_eq_div]
    norm_num
  · intro s
    have h7 : mkRat 7 10 ≤ 1 := by rw [Rat.mkRat_eq_div]; norm_num
    have h4 : mkRat 4 10 ≤ 1 := by rw [Rat.mkRat_eq_div]; norm_num
    have h6 : mkRat 6 10 ≤ 1 := by rw [Rat.mkRat_eq_div]; norm_num
    unfold extractQualityScore
    dsimp only
    split
    · exact min_le_right _ _
    · split
      · exact min_le_right _ _
      · split
        · exact min_le_right _ _
        · split
          · exact min_le_right _ _
          · split
            · exact h7
            · split
              · exact h4
              · exact h6

/-! ### Projection lemmas for the content-workflow nodes -/

theorem evaluateNode_currentIteration (o : CgOracle) (s : CgState) :
    (evaluateNode o s).currentIteration = s.currentIteration := by
  unfold evaluateNode
  split
  · rfl
  · cases o.evalResp s.currentIteration <;> rfl

theorem evaluateNode_maxIterations (o : CgOracle) (s : CgState) :
    (evaluateNode o s).maxIterations = s.maxIterations := by
  unfold evaluateNode
  split
  · rfl
  · cases o.evalResp s.currentIteration <;> rfl

theorem evaluateNode_refinementCriteria (o : CgOracle) (s : CgState) :
    (evaluateNode o s).refinementCriteria = s.refinementCriteria := by
  unfold evaluateNode
  split
  · rfl
  · cases o.evalResp s.currentIteration <;> rfl

theorem evaluateNode_qualityScore (o : CgOracle) (s : CgState)
    (h : s.refinementCriteria.isEmpty = false) :
    (evaluateNode o s).qualityScore = cgEvalScoreAt o s.currentIteration := by
  unfold evaluateNode cgEvalScoreAt
  rw [if_neg (by simp [h])]
  cases o.evalResp s.currentIteration <;> rfl

theorem feedbackNode_currentIteration (o : CgOracle) (s : CgState) :
    (feedbackNode o s).currentIteration = s.currentIteration := by
  unfold feedbackNode
  cases o.feedbackResp s.currentIteration <;> rfl

theorem feedbackNode_maxIterations (o : CgOracle) (s : CgState) :
    (feedbackNode o s).maxIterations = s.maxIterations := by
  unfold feedbackNode
  cases o.feedbackResp s.currentIteration <;> rfl

theorem feedbackNode_refinementCriteria (o : CgOracle) (s : CgState) :
    (feedbackNode o s).refinementCriteria = s.refinementCriteria := by
  unfold feedbackNode
  cases o.feedbackResp s.currentIteration <;> rfl

theorem refineNode_currentIteration (o : CgOracle) (s : CgState) :
    (refineNode o s).currentIteration = s.currentIteration + 1 := by
  unfold refineNode
  cases o.refineResp s.currentIteration <;> rfl

theorem refineNode_maxIterations (o : CgOracle) (s : CgState) :
    (refineNode o s).maxIterations = s.maxIterations := by
  unfold refineNode
  cases o.refineResp s.currentIteration <;> rfl

theorem refineNode_refinementCriteria (o : CgOracle) (s : CgState) :
    (refineNode o s).refinementCriteria = s.refinementCriteria := by
  unfold refineNode
  cases o.refineResp s.currentIteration <;> rfl

/-- Iteration counter after one full refinement cycle. -/
theorem refineStep_currentIteration (o : CgOracle) (s : CgState) :
    (refineNode o (feedbackNode o (evaluateNode o s))).currentIteration =
      s.currentIteration + 1 := by
  rw [refineNode_currentIteration, feedbackNode_currentIteration,
    evaluateNode_currentIteration]

theorem refineStep_maxIterations (o : CgOracle) (s : CgState) :
    (refineNode o (feedbackNode o (evaluateNode o s))).maxIterations =
      s.maxIterations := by
  rw [refineNode_maxIterations, feedbackNode_maxIterations, evaluateNode_maxIterations]

theorem refineStep_refinementCriteria (o : CgOracle) (s : CgState) :
    (refineNode o (feedbackNode o (evaluateNode o s))).refinementCriteria =
      s.refinementCriteria := by
  rw [refineNode_refinementCriteria, feedbackNode_refinementCriteria,
    evaluateNode_refinementCriteria]

theorem shouldRefine_true {s : CgState}
    (h1 : s.currentIteration < s.maxIterations)
    (h2 : s.qualityScore < mkRat 8 10)
    (h3 : s.refinementCriteria.isEmpty = false) : shouldRefine s = true := by
  unfold shouldRefine
  rw [if_neg (by omega : ¬ s.currentIteration ≥ s.maxIterations),
    if_neg (not_le.mpr h2), if_neg (by simp [h3])]

theorem shouldRefine_false_of_iter {s : CgState}
    (h : s.maxIterations ≤ s.currentIteration) : shouldRefine s = false := by
  unfold shouldRefine
  rw [if_pos h]

theorem shouldRefine_false_of_quality {s : CgState}
    (h : mkRat 8 10 ≤ s.qualityScore) : shouldRefine s = false := by
  unfold shouldRefine
  by_cases hi : s.currentIteration ≥ s.maxIterations
  · rw [if_pos hi]
  · rw [if_neg hi, if_pos h]

/-- One-step unfolding of the evaluation loop. -/
theorem cgLoop_succ (o : CgOracle) (fuel : ℕ) (s : CgState) (n : ℕ) :
    cgLoop o (fuel + 1) s n =
      if shouldRefine (evaluateNode o s) then
        cgLoop o fuel (refineNode o (feedbackNode o (evaluateNode o s))) (n + 1)
      else (finalizeContentNode (evaluateNode o s), n) := rfl

/-- The loop takes the refinement branch when the iteration bound is not
reached, this evaluation scores below 0.8 and criteria are non-empty. -/
theorem cgLoop_refine_step (o : CgOracle) (fuel : ℕ) (s : CgState) (n : ℕ)
    (h1 : s.currentIteration < s.maxIterations)
    (h2 : cgEvalScoreAt o s.currentIteration < mkRat 8 10)
    (h3 : s.refinementCriteria.isEmpty = false) :
    cgLoop o (fuel + 1) s n =
      cgLoop o fuel (refineNode o (feedbackNode o (evaluateNode o s))) (n + 1) := by
  have hcond : shouldRefine (evaluateNode o s) = true :=
    shouldRefine_true
      (by rw [evaluateNode_currentIteration, evaluateNode_maxIterations]; exact h1)
      (by rw [evaluateNode_qualityScore o s h3]; exact h2)
      (by rw [evaluateNode_refinementCriteria]; exact h3)
  rw [cgLoop_succ, if_pos hcond]

/-- The loop finalizes once the iteration counter reaches the bound. -/
theorem cgLoop_final_iter (o : CgOracle) (fuel : ℕ) (s : CgState) (n : ℕ)
    (h : s.maxIterations ≤ s.currentIteration) :
    cgLoop o (fuel + 1) s n = (finalizeContentNode (evaluateNode o s), n) := by
  have hcond : shouldRefine (evaluateNode o s) = false :=
    shouldRefine_false_of_iter
      (by rw [evaluateNode_currentIteration, evaluateNode_maxIterations]; exact h)
  rw [cgLoop_succ, if_neg (by simp [hcond])]

/-- The loop finalizes once an evaluation scores at least 0.8. -/
theorem cgLoop_final_quality (o : CgOracle) (fuel : ℕ) (s : CgState) (n : ℕ)
    (h3 : s.refinementCriteria.isEmpty = false)
    (h : mkRat 8 10 ≤ cgEvalScoreAt o s.currentIteration) :
    cgLoop o (fuel + 1) s n = (finalizeContentNode (evaluateNode o s), n) := by
  have hcond : shouldRefine (evaluateNode o s) = false :=
    shouldRefine_false_of_quality
      (by rw [evaluateNode_qualityScore o s h3]; exact h)
  rw [cgLoop_succ, if_neg (by simp [hcond])]

/-- C1 (counterexample): a run with non-empty criteria, `max_iterations=3`,
a successful initial generation and every evaluation scoring 0.3
performs 2 refinement cycles, not 3 — `generate_initial` already counts
as iteration 1, so `should_refine` finalizes after the evaluation at
iteration 3, i.e. after `max_iterations - 1` refinement cycles. -/
theorem c1_counterexample : ¬ contentClaimC1 := by
  intro hclaim
  have hall : ∀ i, cgEvalScoreAt c1Oracle i < mkRat 8 10 := by
    intro i
    have hv : cgEvalScoreAt c1Oracle i = mkRat 3 10 := rfl
    rw [hv]
    decide
  have h := (hclaim c1Oracle "p" "draft" ["clarity"] (by simp) rfl).1 hall
  have h2 : (runRefinement c1Oracle "p" ["clarity"] 3).2 = 2 := by decide
  omega

/-- C1 (amended): with non-empty refinement criteria, `max_iterations = 3`
and a successful initial generation (which sets `current_iteration` to
1), a run in which every quality evaluation scores below 0.8 performs
exactly 2 refinement cycles (`generate_feedback` followed by
`refine_content`) before reaching `finalize_content`, and a run whose
first evaluation already scores ≥ 0.8 performs 0 refinement cycles. -/
theorem c1_refinement_cycles :
    ∀ (o : CgOracle) (p t : String) (crit : List String),
      crit ≠ [] →
      o.initial = .ok t →
      ((∀ i, cgEvalScoreAt o i < mkRat 8 10) → (runRefinement o p crit 3).2 = 2) ∧
      (mkRat 8 10 ≤ cgEvalScoreAt o 1 → (runRefinement o p crit 3).2 = 0) := by
  intro o p t crit hcrit hinit
  have hc : crit.isEmpty = false := by
    cases crit with
    | nil => simp at hcrit
    | cons a l => rfl
  set s0 : CgState :=
    { prompt := p, generatedContent := [], refinementCriteria := crit
      currentIteration := 0, maxIterations := 3, qualityScore := 0
      feedback := [], finalContent := [], trace := [] } with hs0
  have runEq : runRefinement o p crit 3 = cgLoop o (3 + 1) (generateInitialNode o s0) 0 := rfl
  have hs1 : generateInitialNode o s0 =
      { s0 with
          generatedContent := t.toList
          currentIteration := 1
          trace := s0.trace ++ ["generate_initial"] } := by
    unfold generateInitialNode
    rw [hinit]
  have f1iter : (generateInitialNode o s0).currentIteration = 1 := by rw [hs1]
  have f1max : (generateInitialNode o s0).maxIterations = 3 := by rw [hs1, hs0]
  have f1crit : (generateInitialNode o s0).refinementCriteria = crit := by rw [hs1, hs0]
  constructor
  · intro hall
    rw [runEq]
    rw [cgLoop_refine_step o 3 _ 0 (by rw [f1iter, f1max]; omega)
      (by rw [f1iter]; exact hall 1) (by rw [f1crit]; exact hc)]
    have f2iter := (refineStep_currentIteration o (generateInitialNode o s0)).trans
      (by rw [f1iter])
    have f2max := (refineStep_maxIterations o (generateInitialNode o s0)).trans f1max
    have f2crit := (refineStep_refinementCriteria o (generateInitialNode o s0)).trans f1crit
    rw [show (3 : ℕ) = 2 + 1 from rfl]
    rw [cgLoop_refine_step o 2 _ (0 + 1) (by rw [f2iter, f2max]; omega)
      (by rw [f2iter]; exact hall 2) (by rw [f2crit]; exact hc)]
    have f3iter := (refineStep_currentIteration o _).trans (by rw [f2iter])
    have f3max := (refineStep_maxIterations o _).trans f2max
    rw [show (2 : ℕ) = 1 + 1 from rfl]
    rw [cgLoop_final_iter o 1 _ (0 + 1 + 1) (by rw [f3iter, f3max])]
  · intro hhigh
    rw [runEq]
    rw [cgLoop_final_quality o 3 _ 0 (by rw [f1crit]; exact hc)
      (by rw [f1iter]; exact hhigh)]

/-- Witness for C1's amended theorem: the concrete always-0.3 run performs
2 cycles, and the same run with evaluations reading "9/10" performs 0. -/
theorem c1_witness :
    (["clarity"] : List String) ≠ [] ∧
      (runRefinement c1Oracle "p" ["clarity"] 3).2 = 2 ∧
      (runRefinement { c1Oracle with evalResp := fun _ => .ok "9/10" }
          "p" ["clarity"] 3).2 = 0 :=
  ⟨by simp,
   (c1_refinement_cycles c1Oracle "p" "draft" ["clarity"] (by simp) rfl).1
     (fun i => by
       have hv : cgEvalScoreAt c1Oracle i = mkRat 3 10 := rfl
       rw [hv]
       decide),
   (c1_refinement_cycles { c1Oracle with evalResp := fun _ => .ok "9/10" }
       "p" "draft" ["clarity"] (by simp) rfl).2
     (by
       have hv : cgEvalScoreAt
           { c1Oracle with evalResp := fun _ => .ok "9/10" } 1 = mkRat 9 10 := rfl
       rw [hv]
       decide)⟩

/-! ### Lemmas for the database workflow (C4) -/

theorem mem_altPush {alts cur : List (List Char)} {q : List Char}
    (hq : q ∈ altPush alts cur) : q ∈ alts ∨ isSelectPrefixed q = true := by
  simp only [altPush] at hq
  split at hq
  next hcond =>
    rcases List.mem_append.mp hq with h1 | h2
    · exact Or.inl h1
    · have h2' := List.mem_singleton.mp h2
      subst h2'
      exact Or.inr hcond
  next => exact Or.inl hq

theorem mem_altPushGuardNonEmpty {alts cur : List (List Char)} {q : List Char}
    (hq : q ∈ altPushGuardNonEmpty alts cur) : q ∈ alts ∨ isSelectPrefixed q = true := by
  simp only [altPushGuardNonEmpty] at hq
  split at hq
  next hcond =>
    rcases List.mem_append.mp hq with h1 | h2
    · exact Or.inl h1
    · have h2' := List.mem_singleton.mp h2
      subst h2'
      exact Or.inr ((Bool.and_eq_true _ _).mp hcond).2
  next => exact Or.inl hq

/-- Every query the line loop collects begins with `select`. -/
theorem extractAltGo_select :
    ∀ (lines alts cur : List (List Char)),
      (∀ q ∈ alts, isSelectPrefixed q = true) →
      ∀ q ∈ extractAltGo lines alts cur, isSelectPrefixed q = true := by
  intro lines
  induction lines with
  | nil =>
    intro alts cur h q hq
    unfold extractAltGo at hq
    split at hq
    · exact h q hq
    · exact (mem_altPush hq).elim (h q) id
  | cons hd tl ih =>
    intro alts cur h q hq
    simp only [extractAltGo] at hq
    repeat' split at hq
    all_goals first
      | exact ih _ _ h q hq
      | exact ih _ [] (fun q' hq' => (mem_altPushGuardNonEmpty hq').elim (h q') id) q hq
      | exact ih _ [] (fun q' hq' => (mem_altPush hq').elim (h q') id) q hq

theorem extractAlternativeQueries_select (resp : List Char) :
    ∀ q ∈ extractAlternativeQueries resp, isSelectPrefixed q = true := by
  intro q hq
  unfold extractAlternativeQueries at hq
  exact extractAltGo_select _ [] [] (by intro q' hq'; cases hq') q (List.mem_of_mem_take hq)

theorem extractAlternativeQueries_length (resp : List Char) :
    (extractAlternativeQueries resp).length ≤ 3 := by
  unfold extractAlternativeQueries
  exact List.length_take_le _ _

/-! Field-preservation lemmas for the database nodes. -/

theorem analyzeNode_alternativeQueries (o : DbOracle) (s : DbState) :
    (analyzeNode o s).alternativeQueries = s.alternativeQueries := by
  unfold analyzeNode
  cases o.analyze <;> rfl

theorem genSqlNode_alternativeQueries (o : DbOracle) (s : DbState) :
    (genSqlNode o s).alternativeQueries = s.alternativeQueries := by
  unfold genSqlNode
  cases o.gensql <;> rfl

theorem validateNode_alternativeQueries (s : DbState) :
    (validateNode s).alternativeQueries = s.alternativeQueries := rfl

theorem safetyNode_alternativeQueries (s : DbState) :
    (safetyNode s).alternativeQueries = s.alternativeQueries := rfl

theorem explainNode_safetyChecks (o : DbOracle) (s : DbState) :
    (explainNode o s).safetyChecks = s.safetyChecks := by
  unfold explainNode
  split
  · rfl
  · cases o.explain <;> rfl

theorem altsNode_safetyChecks (o : DbOracle) (s : DbState) :
    (altsNode o s).safetyChecks = s.safetyChecks := by
  unfold altsNode
  repeat' split
  all_goals rfl

theorem isQuerySafe_finalizeDbNode (s : DbState) :
    isQuerySafe (finalizeDbNode s) = isQuerySafe s := rfl

theorem isQuerySafe_altsNode (o : DbOracle) (s : DbState) :
    isQuerySafe (altsNode o s) = isQuerySafe s := by
  unfold isQuerySafe
  rw [altsNode_safetyChecks]

theorem isQuerySafe_explainNode (o : DbOracle) (s : DbState) :
    isQuerySafe (explainNode o s) = isQuerySafe s := by
  unfold isQuerySafe
  rw [explainNode_safetyChecks]

/-- The alternatives node leaves the list empty or fills it from
`_extract_alternative_queries`. -/
theorem altsNode_cases (o : DbOracle) (s : DbState) :
    (altsNode o s).alternativeQueries = [] ∨
      ∃ t : String, (altsNode o s).alternativeQueries = extractAlternativeQueries t.toList := by
  unfold altsNode
  repeat' split
  all_goals first
    | exact Or.inl rfl
    | exact Or.inr ⟨_, rfl⟩

/-- The safety-gated tail of the workflow, for an arbitrary post-safety
state whose alternatives list is (still) empty. -/
theorem dbRun_invariant_aux (o : DbOracle) (s4 : DbState)
    (halts : s4.alternativeQueries = []) :
    (finalizeDbNode (if isQuerySafe s4 then altsNode o (explainNode o s4) else s4)).alternativeQueries.length ≤ 3 ∧
      (isQuerySafe (finalizeDbNode (if isQuerySafe s4 then altsNode o (explainNode o s4) else s4)) = false →
        (finalizeDbNode (if isQuerySafe s4 then altsNode o (explainNode o s4) else s4)).alternativeQueries = []) ∧
      (∀ a ∈ (finalizeDbNode (if isQuerySafe s4 then altsNode o (explainNode o s4) else s4)).alternativeQueries,
        isSelectPrefixed a = true) := by
  by_cases hsafe : isQuerySafe s4
  · rw [if_pos hsafe]
    have hfin : (finalizeDbNode (altsNode o (explainNode o s4))).alternativeQueries =
        (altsNode o (explainNode o s4)).alternativeQueries := rfl
    refine ⟨?_, ?_, ?_⟩
    · rcases altsNode_cases o (explainNode o s4) with h0 | ⟨t, ht⟩
      · rw [hfin, h0]
        simp
      · rw [hfin, ht]
        exact extractAlternativeQueries_length _
    · intro hfalse
      rw [isQuerySafe_finalizeDbNode, isQuerySafe_altsNode, isQuerySafe_explainNode] at hfalse
      rw [hfalse] at hsafe
      exact absurd hsafe (by simp)
    · intro a ha
      rw [hfin] at ha
      rcases altsNode_cases o (explainNode o s4) with h0 | ⟨t, ht⟩
      · rw [h0] at ha
        cases ha
      · rw [ht] at ha
        exact extractAlternativeQueries_select _ a ha
  · rw [if_neg hsafe]
    have hfin : (finalizeDbNode s4).alternativeQueries = s4.alternativeQueries := rfl
    refine ⟨?_, fun _ => ?_, ?_⟩
    · rw [hfin, halts]
      simp
    · rw [hfin, halts]
    · intro a ha
      rw [hfin, halts] at ha
      cases ha

/-- C4: in every run of the database query workflow the final
`alternative_queries` list has at most 3 entries, is empty whenever the
safety check's `is_safe` flag is false, and every entry begins with
`select` (case-insensitively). -/
theorem c4_alternatives_invariant :
    ∀ (o : DbOracle) (q : String),
      (runDb o q).alternativeQueries.length ≤ 3 ∧
        (isQuerySafe (runDb o q) = false → (runDb o q).alternativeQueries = []) ∧
        (∀ a ∈ (runDb o q).alternativeQueries, isSelectPrefixed a = true) := by
  intro o q
  exact dbRun_invariant_aux o
    (safetyNode (validateNode (genSqlNode o (analyzeNode o
      { naturalQuery := q, generatedSql := [], sqlExplanation := []
        validationResults := none, safetyChecks := none, confidenceScore := 0
        alternativeQueries := [], queryType := none, complexity := none, trace := [] }))))
    (by
      rw [safetyNode_alternativeQueries, validateNode_alternativeQueries,
        genSqlNode_alternativeQueries, analyzeNode_alternativeQueries])

/-- Witness for C4 at a run whose generated SQL is an unguarded DELETE:
the safety check rejects it and the alternatives list is empty. -/
theorem c4_witness :
    (runDb c4Oracle "remove all users").alternativeQueries = [] :=
  (c4_alternatives_invariant c4Oracle "remove all users").2.1 (by decide)

/-! ### Lemmas for the Anthropic message conversion (C10) -/

/-- The conversion loop's message list: the accumulator followed by the
non-system messages in order. -/
theorem anthropicConvertGo_snd :
    ∀ (l : List ChatMessageV) (sys : Option String) (acc : List ChatMessageV),
      (anthropicConvertGo l sys acc).2 = acc ++ l.filter (fun m => m.role ≠ "system") := by
  intro l
  induction l with
  | nil => intro sys acc; simp [anthropicConvertGo]
  | cons m rest ih =>
    intro sys acc
    by_cases hm : m.role = "system"
    · simp [anthropicConvertGo, hm, ih]
    · simp [anthropicConvertGo, hm, ih]

/-- The conversion loop's `system_message`: the content of the last
system message, else the incoming value. -/
theorem anthropicConvertGo_fst :
    ∀ (l : List ChatMessageV) (sys : Option String) (acc : List ChatMessageV),
      (anthropicConvertGo l sys acc).1 =
        match l.reverse.find? (fun m => m.role = "system") with
        | some m => some m.content
        | none => sys := by
  intro l
  induction l with
  | nil => intro sys acc; simp [anthropicConvertGo]
  | cons m rest ih =>
    intro sys acc
    by_cases hm : m.role = "system"
    · rw [show anthropicConvertGo (m :: rest) sys acc =
          anthropicConvertGo rest (some m.content) acc from by
        simp [anthropicConvertGo, hm]]
      rw [ih, List.reverse_cons, List.find?_append]
      cases hf : rest.reverse.find? (fun m => m.role = "system") with
      | some mm => simp [Option.or]
      | none => simp [Option.or, List.find?, hm]
    · rw [show anthropicConvertGo (m :: rest) sys acc =
          anthropicConvertGo rest sys (acc ++ [m]) from by
        simp [anthropicConvertGo, hm]]
      rw [ih, List.reverse_cons, List.find?_append]
      cases hf : rest.reverse.find? (fun m => m.role = "system") with
      | some mm => simp [Option.or]
      | none => simp [Option.or, List.find?, hm]

/-- C10: when the message list holds more than one system message, only
the last one's content is forwarded via the `system` parameter (omitted
when that content is empty, since Python tests truthiness); every
earlier system message is dropped entirely, and the non-system messages
are forwarded in their original order — for both `chat` and
`stream_chat`. -/
theorem c10_last_system_wins :
    ∀ (msgs : List ChatMessageV),
      2 ≤ (msgs.filter (fun m => m.role = "system")).length →
      ((anthropicChatConvert msgs).1 =
          ((msgs.reverse.find? (fun m => m.role = "system")).map (·.content)).bind
            (fun c => if c = "" then none else some c) ∧
        (anthropicChatConvert msgs).2 = msgs.filter (fun m => m.role ≠ "system")) ∧
      ((anthropicStreamChatConvert msgs).1 =
          ((msgs.reverse.find? (fun m => m.role = "system")).map (·.content)).bind
            (fun c => if c = "" then none else some c) ∧
        (anthropicStreamChatConvert msgs).2 = msgs.filter (fun m => m.role ≠ "system")) := by
  intro msgs _htwo
  have hfst := anthropicConvertGo_fst msgs none []
  have hsnd := anthropicConvertGo_snd msgs none []
  refine ⟨⟨?_, ?_⟩, ⟨?_, ?_⟩⟩
  · show (match (anthropicConvertGo msgs none []).1 with
      | some c => if c = "" then none else some c
      | none => none) = _
    rw [hfst]
    cases msgs.reverse.find? (fun m => m.role = "system") with
    | none => rfl
    | some mm => rfl
  · show (anthropicConvertGo msgs none []).2 = _
    rw [hsnd]
    simp
  · show (match (anthropicConvertGo msgs none []).1 with
      | some c => if c = "" then none else some c
      | none => none) = _
    rw [hfst]
    cases msgs.reverse.find? (fun m => m.role = "system") with
    | none => rfl
    | some mm => rfl
  · show (anthropicConvertGo msgs none []).2 = _
    rw [hsnd]
    simp

/-- Witness for C10 at two system messages around a user turn. -/
theorem c10_witness :
    (anthropicChatConvert c10Msgs).1 = some "second" ∧
      (anthropicChatConvert c10Msgs).2 = [⟨"user", "u"⟩] :=
  ⟨((c10_last_system_wins c10Msgs (by decide)).1.1).trans (by decide),
   ((c10_last_system_wins c10Msgs (by decide)).1.2).trans (by decide)⟩

/-! ### Lemmas for `similarity_search` (C9) -/

/-- C9: for a non-empty document list, `top_k ≥ 1` and one similarity per
document, `similarity_search` returns exactly `min top_k n` results, in
non-increasing similarity order, with pairwise-distinct document
indices — in particular a `top_k` larger than the document count
returns one result per document rather than failing. -/
theorem c9_similarity_topk :
    ∀ (sims : List ℚ) (docs : List String) (topK : ℕ),
      docs ≠ [] → 1 ≤ topK → sims.length = docs.length →
      (similaritySearchSelect sims docs topK).length = min topK docs.length ∧
        List.Pairwise (fun a b : String × ℚ × ℕ => b.2.1 ≤ a.2.1)
          (similaritySearchSelect sims docs topK) ∧
        ((similaritySearchSelect sims docs topK).map fun e => e.2.2).Nodup := by
  intro sims docs topK _hne hk hlen
  have hk0 : topK ≠ 0 := by omega
  haveI htot : IsTotal ℕ (fun i j => sims.getD i 0 ≤ sims.getD j 0) :=
    ⟨fun a b => le_total _ _⟩
  haveI htrans : IsTrans ℕ (fun i j => sims.getD i 0 ≤ sims.getD j 0) :=
    ⟨fun a b c hab hbc => le_trans hab hbc⟩
  have hsorted : List.Pairwise (fun i j => sims.getD i 0 ≤ sims.getD j 0) (argsortAsc sims) := by
    unfold argsortAsc
    exact List.sorted_insertionSort _ _
  have hlen2 : (argsortAsc sims).length = sims.length := by
    unfold argsortAsc
    rw [List.length_insertionSort, List.length_range]
  have hnodup : (argsortAsc sims).Nodup :=
    ((List.perm_insertionSort _ _).nodup_iff).mpr (List.nodup_range _)
  have hslice : pySliceLast topK (argsortAsc sims) =
      (argsortAsc sims).drop ((argsortAsc sims).length - topK) := by
    unfold pySliceLast
    rw [if_neg hk0]
  set top := (pySliceLast topK (argsortAsc sims)).reverse with htop
  have hsel : similaritySearchSelect sims docs topK =
      top.map (fun idx => (docs.getD idx "", sims.getD idx 0, idx)) := by
    rw [htop]
    rfl
  have hsortedTop : List.Pairwise (fun i j => sims.getD j 0 ≤ sims.getD i 0) top := by
    rw [htop, hslice]
    exact List.pairwise_reverse.mpr (List.Pairwise.sublist (List.drop_sublist _ _) hsorted)
  have hlenTop : top.length = min topK docs.length := by
    rw [htop, hslice, List.length_reverse, List.length_drop, hlen2, hlen]
    omega
  have hnodupTop : top.Nodup := by
    rw [htop, hslice]
    exact List.nodup_reverse.mpr (List.Nodup.sublist (List.drop_sublist _ _) hnodup)
  refine ⟨?_, ?_, ?_⟩
  · rw [hsel, List.length_map, hlenTop]
  · rw [hsel]
    exact List.Pairwise.map _ (fun a b hab => hab) hsortedTop
  · rw [hsel, List.map_map]
    rw [show ((fun e : String × ℚ × ℕ => e.2.2) ∘
        fun idx => (docs.getD idx "", sims.getD idx 0, idx)) = id from rfl, List.map_id]
    exact hnodupTop

/-- Witness for C9 at the §8.8 similarities with `top_k = 2`. -/
theorem c9_witness :
    (similaritySearchSelect c9Sims c9Docs 2).length = min 2 c9Docs.length ∧
      List.Pairwise (fun a b : String × ℚ × ℕ => b.2.1 ≤ a.2.1)
        (similaritySearchSelect c9Sims c9Docs 2) ∧
      ((similaritySearchSelect c9Sims c9Docs 2).map fun e => e.2.2).Nodup :=
  c9_similarity_topk c9Sims c9Docs 2 (by decide) (by omega) rfl

end VN
